import Mathlib

/-!
# Verification of the CyberCypher shadow-replay / consensus pipeline

Shallow embedding of the repository's diff-classification engine
(`src/engine/utils.py`, `src/engine/shadow_engine.py`) and of the
orchestrator's council pipeline (`src/orchestrator/app/...`), together with
theorems settling the specification's claims about them.

Modelling conventions:
* Python numeric values (int/float/bool, with bool a numeric type as in
  Python's `isinstance(x, (int, float))`) are carried by exact rationals;
  numeric arithmetic is modelled exactly over `ℚ`.
* External library calls (Python `json.loads`, `deepdiff.DeepDiff`, HTTP
  transport, model backends) are parameters of the embedded functions;
  repository code is translated directly.
* Python's builtin `float(str)` coercion is modelled on plain decimal
  literals (optional sign, digits, optional fractional part); exponent
  forms, inf/nan and surrounding whitespace are not needed by any claim.
-/

attribute [local semireducible] Rat.mul Rat.add Rat.sub Rat.inv

namespace CyberCypher

/-- Python's builtin `abs()` on an exact rational. -/
def pyAbs (q : ℚ) : ℚ := if q < 0 then -q else q

/-- Python's builtin `min()` on two exact rationals. -/
def pyMin (a b : ℚ) : ℚ := if a ≤ b then a else b

/-- Python's builtin `max()` on two exact rationals. -/
def pyMax (a b : ℚ) : ℚ := if a ≥ b then a else b

theorem pyAbs_eq_abs (q : ℚ) : pyAbs q = |q| := by
  unfold pyAbs
  split_ifs with h
  · exact (abs_of_neg h).symm
  · exact (abs_of_nonneg (le_of_not_lt h)).symm

theorem pyMin_eq_right (a b : ℚ) (h : b ≤ a) : pyMin a b = b := by
  unfold pyMin
  split_ifs with h2
  · exact le_antisymm h2 h
  · rfl

theorem pyMax_eq_right (a b : ℚ) (h : a ≤ b) : pyMax a b = b := by
  unfold pyMax
  split_ifs with h2
  · exact le_antisymm h h2
  · rfl

/-- A JSON-like leaf value as it appears in a DeepDiff entry: Python
int, float, bool, str or None. -/
inductive PyVal where
  | int   (n : ℤ)
  | float (q : ℚ)
  | bool  (b : Bool)
  | str   (s : String)
  | none_
deriving DecidableEq, Repr

/-- Python `isinstance(v, (int, float))`: true for int, float and bool
(bool is a subclass of int in Python). -/
def PyVal.isNumeric : PyVal → Bool
  | .int _ => true
  | .float _ => true
  | .bool _ => true
  | _ => false

/-- Python `isinstance(v, bool)`. -/
def PyVal.isBool : PyVal → Bool
  | .bool _ => true
  | _ => false

/-- `float(v)` for a value already numeric in Python's sense
(`int`, `float`, or `bool` with True→1.0, False→0.0). -/
def numVal? : PyVal → Option ℚ
  | .int n => some (n : ℚ)
  | .float q => some q
  | .bool b => some (if b then 1 else 0)
  | _ => none

/-- Digits of a decimal literal folded into a natural number. -/
def digitsToNat (cs : List Char) : ℕ :=
  cs.foldl (fun a c => a * 10 + (c.toNat - 48)) 0

/-- Split a character list at the first `'.'`, if any. -/
def splitAtDot : List Char → List Char × Option (List Char)
  | [] => ([], none)
  | '.' :: t => ([], some t)
  | c :: t =>
      let p := splitAtDot t
      (c :: p.1, p.2)

/-- Python's builtin `float(s)` on a plain decimal string: optional sign,
digits, at most one dot, at least one digit overall; `none` models the
`ValueError` raised on anything else. -/
def pyFloat? (s : String) : Option ℚ :=
  let cs := s.toList
  let signed : ℚ × List Char :=
    match cs with
    | '-' :: t => (-1, t)
    | '+' :: t => (1, t)
    | t => (1, t)
  let p := splitAtDot signed.2
  let intPart := p.1
  match p.2 with
  | none =>
      if intPart ≠ [] ∧ intPart.all Char.isDigit then
        some (signed.1 * (digitsToNat intPart : ℚ))
      else none
  | some fracPart =>
      if (intPart ≠ [] ∨ fracPart ≠ []) ∧ intPart.all Char.isDigit ∧
          fracPart.all Char.isDigit ∧ ¬ fracPart.contains '.' then
        some (signed.1 *
          ((digitsToNat intPart : ℚ) +
            (digitsToNat fracPart : ℚ) / ((10 : ℚ) ^ fracPart.length)))
      else none

/-- `float()` applied to an arbitrary value: numeric values coerce
directly, strings are parsed, everything else raises (modelled `none`). -/
def pyFloatOf (v : PyVal) : Option ℚ :=
  match v with
  | .str s => pyFloat? s
  | v => numVal? v

/-- `engine/utils.py check_semantic_equivalence(old, new)`: two numerics
(int/float/bool — `numVal? v = some _` iff `isinstance(v, (int, float))`
holds in Python) compare within absolute tolerance 0.01; a numeric
against a string parses the string first (False on `ValueError`); all
other shapes, including string-vs-string, are False. -/
def check_semantic_equivalence (old new : PyVal) : Bool :=
  match numVal? old, numVal? new with
  | some a, some b => pyAbs (a - b) < 1/100
  | some a, none =>
      match new with
      | .str s =>
          match pyFloat? s with
          | some b => pyAbs (a - b) < 1/100
          | none => false
      | _ => false
  | none, some b =>
      match old with
      | .str s =>
          match pyFloat? s with
          | some a => pyAbs (a - b) < 1/100
          | none => false
      | _ => false
  | none, none => false

/-- The numeric coercion pair implicit in `check_semantic_equivalence`'s
branch structure: both values numeric, or one numeric and the other a
string that parses as a float. -/
def coercePair? (old new : PyVal) : Option (ℚ × ℚ) :=
  match numVal? old, numVal? new with
  | some a, some b => some (a, b)
  | some a, none =>
      match new with
      | .str s => (pyFloat? s).map fun b => (a, b)
      | _ => none
  | none, some b =>
      match old with
      | .str s => (pyFloat? s).map fun a => (a, b)
      | _ => none
  | none, none => none

theorem check_semantic_equivalence_eq_coerce (old new : PyVal) :
    check_semantic_equivalence old new =
      (match coercePair? old new with
       | some p => decide (pyAbs (p.1 - p.2) < 1/100)
       | none => false) := by
  unfold check_semantic_equivalence coercePair?
  rcases h1 : numVal? old with _ | a <;> rcases h2 : numVal? new with _ | b <;>
      simp only [h1, h2] <;> try rfl
  · rcases old with n | q | bb | s | _ <;> try rfl
    rcases hp : pyFloat? s with _ | c <;> simp [hp]
  · rcases new with n | q | bb | s | _ <;> try rfl
    rcases hp : pyFloat? s with _ | c <;> simp [hp]

theorem coercePair?_some_iff_check (old new : PyVal) (p q : ℚ)
    (h : coercePair? old new = some (p, q)) :
    check_semantic_equivalence old new = true ↔ pyAbs (p - q) < 1/100 := by
  rw [check_semantic_equivalence_eq_coerce, h]
  simp

/-! ## The shadow-replay engine (`src/engine/shadow_engine.py`) -/

/-- The slice of a `deepdiff.DeepDiff` result that `run_shadow_replay`
consumes. Each category key is present in the Python dict exactly when its
entry list is non-empty; `type_changes` entries carry `old_value` and
`new_value`. -/
structure DiffReport where
  type_changes : List (String × PyVal × PyVal) := []
  dictionary_item_removed : List String := []
  values_changed : List (String × PyVal × PyVal) := []
deriving DecidableEq, Repr

/-- Python truthiness of the dict `diff_report`, and presence of the
`"type_changes"` key (DeepDiff drops empty categories). -/
def DiffReport.isEmptyDiff (d : DiffReport) : Bool :=
  d.type_changes.isEmpty ∧ d.dictionary_item_removed.isEmpty ∧
    d.values_changed.isEmpty

/-- The semantic-check loop of `run_shadow_replay`: every `type_changes`
entry whose `old_value`/`new_value` satisfy `check_semantic_equivalence`
is collected in `keys_to_remove` and deleted; equivalently, the entries
kept are those failing the check. -/
def semanticCleanup (d : DiffReport) : DiffReport :=
  { d with
    type_changes :=
      d.type_changes.filter fun e => ! check_semantic_equivalence e.2.1 e.2.2 }

/-- The flag block of `run_shadow_replay`, evaluated on the diff BEFORE
the semantic check: `"type_change" in str(diff)` holds iff the diff has
type-change entries, `"dictionary_item_removed" in str(diff)` iff it has
removed keys, and the performance test compares the averaged candidate
latency against 1.5× the reference latency. -/
def computeFlags (diff : DiffReport) (legacy_time headless_time_avg : ℚ) :
    List String :=
  (if ¬ diff.type_changes.isEmpty then ["type_mismatch"] else []) ++
  (if ¬ diff.dictionary_item_removed.isEmpty then ["missing_key"] else []) ++
  (if headless_time_avg > legacy_time * (3/2) then ["performance_regression"]
   else [])

/-- The portion of `run_shadow_replay` that follows the diff computation:
flags are derived from the pre-suppression diff, then the semantic check
rewrites the diff. Returns (cleaned diff, flags). -/
def replayPostDiff (diff : DiffReport) (legacy_time headless_time_avg : ℚ) :
    DiffReport × List String :=
  (semanticCleanup diff, computeFlags diff legacy_time headless_time_avg)

/-- A JSON-object HTTP response body, as returned by `resp.json()` for the
compared endpoints. -/
structure HttpResp where
  body : List (String × PyVal)
deriving DecidableEq, Repr

/-- Python truthiness of an optional response dict: `None` and `{}` are
falsy. -/
def respTruthy : Option HttpResp → Bool
  | some r => ! r.body.isEmpty
  | none => false

/-- Outcome of one `_send_request(url, payload)` call: `(resp.json(),
elapsed, None)` on success, `(None, 0, str(e))` on any exception. -/
structure SendOutcome where
  resp : Option HttpResp
  time : ℚ
  err : Option String
deriving DecidableEq, Repr

/-- `_send_request` failure outcome: `(None, 0, str(e))`. -/
def sendFailure (e : String) : SendOutcome := ⟨none, 0, some e⟩

/-- The candidate retry loop: up to `retries` outcomes are consumed in
order, each appended to `headless_resps`; the loop breaks after the
first outcome with a truthy response and no error. -/
def headlessLoop : List SendOutcome → List SendOutcome
  | [] => []
  | r :: rest =>
      if respTruthy r.resp ∧ r.err = none then [r]
      else r :: headlessLoop rest

/-- The report built by `run_shadow_replay` (persistence and the
orchestrator trigger are side effects outside the model). -/
structure ReplayReport where
  legacy_response : Option HttpResp
  headless_response : Option HttpResp
  diff_summary : DiffReport
  flags : List String
  legacy_time : ℚ
  headless_time : ℚ
  retries_used : ℕ
deriving DecidableEq, Repr

/-- `run_shadow_replay(payload, merchant_id, retries)` with the external
world supplied as data: `deepdiff` is the DeepDiff library call, and the
send outcomes are what `_send_request` returns for the reference call and
for each candidate attempt (the list has length `retries`). Follows the
source: filter valid candidate attempts, average their latencies (0 if
none), diff only when both responses are truthy, compute flags, then run
the semantic cleanup. -/
def run_shadow_replay (deepdiff : HttpResp → HttpResp → DiffReport)
    (legacyOutcome : SendOutcome) (headlessOutcomes : List SendOutcome) :
    ReplayReport :=
  let attempts := headlessLoop headlessOutcomes
  let valid := attempts.filter fun r => r.resp.isSome
  let headless_resp : Option HttpResp :=
    match valid with
    | [] => none
    | r :: _ => r.resp
  let headless_time_avg : ℚ :=
    if valid.isEmpty then 0
    else (valid.map SendOutcome.time).sum / (valid.length : ℚ)
  let diff : DiffReport :=
    if respTruthy legacyOutcome.resp ∧ respTruthy headless_resp then
      match legacyOutcome.resp, headless_resp with
      | some l, some h => deepdiff l h
      | _, _ => {}
    else {}
  let post := replayPostDiff diff legacyOutcome.time headless_time_avg
  { legacy_response := legacyOutcome.resp
    headless_response := headless_resp
    diff_summary := post.1
    flags := post.2
    legacy_time := legacyOutcome.time
    headless_time := headless_time_avg
    retries_used := attempts.length }

/-! ## Orchestrator agents (`src/orchestrator/app/agents/...`) -/

/-- ASCII lowering of one character, as `str.lower()` does on the ASCII
range (the repository only compares ASCII keyword strings). -/
def charLower (c : Char) : Char :=
  if 'A' ≤ c ∧ c ≤ 'Z' then Char.ofNat (c.toNat + 32) else c

/-- Python `s.lower()`. -/
def strLower (s : String) : String := String.mk (s.toList.map charLower)

/-- Python `s.strip()`: drop leading and trailing whitespace. -/
def strStrip (s : String) : String :=
  String.mk
    (((s.toList.dropWhile Char.isWhitespace).reverse.dropWhile
        Char.isWhitespace).reverse)

/-- Python's `needle in hay` substring test. -/
def strContains (hay needle : String) : Bool :=
  let h := hay.toList
  let n := needle.toList
  (List.range (h.length + 1)).any fun i => n.isPrefixOf (h.drop i)

/-- `re.search(r"\x7b.*\x7d", text, re.DOTALL)`: the greedy match runs
from the first opening brace to the last closing brace, provided the
former precedes the latter. -/
def extractBrace (s : String) : Option String :=
  let cs := s.toList
  match cs.findIdx? (· == '\x7b'), cs.reverse.findIdx? (· == '\x7d') with
  | some i, some jr =>
      let j := cs.length - 1 - jr
      if i < j then some (String.mk ((cs.drop i).take (j - i + 1))) else none
  | _, _ => none

/-- One council member's output dict; fields not set by a given agent
keep their defaults. -/
structure Opinion where
  agent : String
  model : Option String := none
  provider : Option String := none
  analysis : String := ""
  detected_issues : List String := []
  false_positives : List String := []
  risk_score : ℚ
  confidence : ℚ
  business_impact : String := ""
  verdict : Option String := none
  recommendation : String := ""
deriving DecidableEq, Repr

/-- The structured payload the Analyzer asks the model for; absent keys
are `none` (`dict.get` defaults apply downstream). -/
structure AnalysisData where
  analysis : Option String := none
  detected_issues : Option (List String) := none
  risk_score : Option ℚ := none
  confidence : Option ℚ := none
  business_impact : Option String := none
deriving DecidableEq, Repr

/-- `PrimaryAnalyzer._fallback_analysis(diff_report, raw_response)`:
rule-based risk of 0.4 for a present `type_changes` key, plus 0.5 for
`dictionary_item_removed`, plus 0.2 for `values_changed`, capped at 1.0,
confidence 0.6. -/
def fallback_analysis (d : DiffReport) (raw : String := "") : Opinion :=
  let issues :=
    (if ¬ d.type_changes.isEmpty then
      ["Type mismatch detected - may break client parsing"] else []) ++
    (if ¬ d.dictionary_item_removed.isEmpty then
      ["Missing fields in headless response - potential null pointer exceptions"]
     else []) ++
    (if ¬ d.values_changed.isEmpty then
      ["Value differences found - may affect business logic"] else [])
  let risk : ℚ :=
    (if ¬ d.type_changes.isEmpty then 2/5 else 0) +
    (if ¬ d.dictionary_item_removed.isEmpty then 1/2 else 0) +
    (if ¬ d.values_changed.isEmpty then 1/5 else 0)
  { agent := "primary_analyzer"
    model := some "fallback_rules"
    analysis := "Fallback analysis detected " ++ toString issues.length ++
      " issues. " ++ raw.take 200
    detected_issues := issues
    risk_score := pyMin risk 1
    confidence := 3/5
    business_impact := "Potential frontend breakage and user experience issues" }

/-- `PrimaryAnalyzer._parse_text_response(text, diff_report)`: keyword
heuristics over the lowercased reply, starting from base risk 0.3
(the `diff_report` argument is unused in the source body). -/
def parse_text_response (text : String) (_d : DiffReport) : AnalysisData :=
  let tl := strLower text
  let c1 := strContains tl "type" &&
    (strContains tl "mismatch" || strContains tl "change")
  let c2 := strContains tl "missing" || strContains tl "removed"
  let issues :=
    (if c1 then ["Type mismatch identified by analyzer"] else []) ++
    (if c2 then ["Missing field identified by analyzer"] else [])
  let r1 : ℚ := 3/10 + (if c1 then 3/10 else 0) + (if c2 then 2/5 else 0)
  let r2 : ℚ :=
    if strContains tl "critical" || strContains tl "high risk" then r1 + 3/10
    else if strContains tl "low risk" || strContains tl "minor" then
      pyMax (r1 - 1/5) (1/10)
    else r1
  { analysis := some (text.take 300)
    detected_issues := some issues
    risk_score := some (pyMin r2 1)
    confidence := some (7/10)
    business_impact :=
      some "Analysis suggests potential impact on e-commerce operations" }

/-- The opinion dict built from parsed analyzer data (`dict.get`
defaults: risk 0.5, confidence 0.8, analysis defaults to the raw
reply). -/
def mkAnalyzerOpinion (model_name text : String) (data : AnalysisData) :
    Opinion :=
  { agent := "primary_analyzer"
    model := some model_name
    analysis := data.analysis.getD text
    detected_issues := data.detected_issues.getD []
    risk_score := data.risk_score.getD (1/2)
    confidence := data.confidence.getD (4/5)
    business_impact := data.business_impact.getD "Unknown impact" }

/-- `PrimaryAnalyzer.analyze`, with the external world as data: `jl` is
`json.loads` (none = raises), `model?` the result of
`get_healthy_model`, `reply?` the result of `call_model` (none = call
failed). No branch raises: every failure path returns the rule-based
fallback opinion. -/
def analyzeOutcome (jl : String → Option AnalysisData)
    (model? : Option String) (reply? : Option String) (d : DiffReport) :
    Opinion :=
  match model? with
  | none => fallback_analysis d
  | some m =>
    match reply? with
    | none => fallback_analysis d
    | some text =>
      match extractBrace text with
      | some block =>
          match jl block with
          | some data => mkAnalyzerOpinion m text data
          | none => fallback_analysis d text
      | none => mkAnalyzerOpinion m text (parse_text_response text d)

/-- `SkepticCritic._is_semantically_equivalent`: numeric-vs-string within
tolerance 0.001, string-vs-string lowercased and stripped; note that two
numerics (e.g. int vs float) hit no branch and return False. -/
def skeptic_is_semantically_equivalent (old new : PyVal) : Bool :=
  match old, new with
  | .str s, .str t => strStrip (strLower s) == strStrip (strLower t)
  | o, .str s =>
      if o.isNumeric then
        match numVal? o, pyFloat? s with
        | some a, some b => pyAbs (a - b) < 1/1000
        | _, _ => false
      else false
  | .str s, n =>
      if n.isNumeric then
        match pyFloat? s, numVal? n with
        | some a, some b => pyAbs (a - b) < 1/1000
        | _, _ => false
      else false
  | _, _ => false

/-- Python `str(v)` for f-string interpolation (float formatting
approximated; only list lengths are proved about these messages). -/
def pyStr : PyVal → String
  | .int n => toString n
  | .float q => toString q
  | .bool b => if b then "True" else "False"
  | .str s => s
  | .none_ => "None"

/-- The fallback critique dict of `SkepticCritic._fallback_critique`; it
carries `false_positives`/`genuine_concerns`/`risk_adjustment` and has
no `detected_issues` or `risk_score` keys. -/
structure CritiqueOpinion where
  agent : String
  model : String
  critique : String
  false_positives : List String
  genuine_concerns : List String
  risk_adjustment : ℚ
  confidence : ℚ
  recommendation : String
deriving DecidableEq, Repr

/-- Case comparison for a `values_changed` entry: `some` iff both values
are strings, carrying whether they are equal ignoring case. -/
def strPairCase : PyVal → PyVal → Option Bool
  | .str a, .str b => some (strLower a == strLower b)
  | _, _ => none

/-- `SkepticCritic._fallback_critique(primary_analysis, diff_report,
raw_response)`: recomputes false positives and genuine concerns from the
diff itself (type changes via the 0.001-tolerance equivalence check,
case-only string value changes, removed keys), accumulating risk
adjustments of -0.2 and -0.1; confidence 0.7. The `primary_analysis`
argument is read into a local but never used. -/
def skeptic_fallback_critique (_primary : Opinion) (d : DiffReport)
    (raw : String := "") : CritiqueOpinion :=
  let tcEquiv := d.type_changes.filter fun e =>
    skeptic_is_semantically_equivalent e.2.1 e.2.2
  let tcConc := d.type_changes.filter fun e =>
    ! skeptic_is_semantically_equivalent e.2.1 e.2.2
  let vcFp := d.values_changed.filter fun e =>
    strPairCase e.2.1 e.2.2 == some true
  let vcConc := d.values_changed.filter fun e =>
    strPairCase e.2.1 e.2.2 == some false
  let false_positives :=
    tcEquiv.map (fun e => "Type change at " ++ e.1 ++
      " is semantically equivalent (" ++ pyStr e.2.1 ++ " ~ " ++
      pyStr e.2.2 ++ ")") ++
    vcFp.map (fun e => "Case-only change at " ++ e.1 ++ " is likely safe")
  let genuine_concerns :=
    tcConc.map (fun e => "Type change at " ++ e.1 ++ " may break parsing") ++
    vcConc.map (fun e => "Value change at " ++ e.1 ++
      " may affect business logic") ++
    d.dictionary_item_removed.map (fun item => "Missing field " ++ item ++
      " is a genuine concern")
  { agent := "skeptic_critic"
    model := "fallback_rules"
    critique := "Fallback critique identified " ++
      toString false_positives.length ++ " false positives and " ++
      toString genuine_concerns.length ++ " genuine concerns. " ++ raw.take 200
    false_positives := false_positives
    genuine_concerns := genuine_concerns
    risk_adjustment :=
      -(1/5) * (tcEquiv.length : ℚ) - (1/10) * (vcFp.length : ℚ)
    confidence := 7/10
    recommendation := "Manual review recommended due to mixed findings" }

/-- The structured payload `SimpleCouncil._call_skeptic_critic` asks the
model for. -/
structure SData where
  analysis : Option String := none
  false_positives : Option (List String) := none
  real_issues : Option (List String) := none
  adjusted_risk : Option ℚ := none
deriving DecidableEq, Repr

/-- `SimpleCouncil._call_skeptic_critic(primary_result, diff_report)`:
`jl` is `json.loads` on the model reply; `reply = none` models the
ollama call raising (the except branch). On a reply that fails to parse,
the fallback dict echoes the primary's issues, declares no false
positives and keeps the primary's risk score; the opinion then carries
confidence 0.7. -/
def simple_call_skeptic_critic (jl : String → Option SData)
    (primary : Opinion) (reply : Option String) : Opinion :=
  match reply with
  | none =>
      { agent := "skeptic_critic"
        provider := some "mistral"
        analysis := ""
        detected_issues := primary.detected_issues
        risk_score := primary.risk_score
        confidence := 1/10 }
  | some text =>
      let r : SData :=
        match jl text with
        | some r => r
        | none =>
            { analysis := some (text.take 200)
              false_positives := some []
              real_issues := some primary.detected_issues
              adjusted_risk := some primary.risk_score }
      { agent := "skeptic_critic"
        provider := some "mistral"
        analysis := r.analysis.getD ""
        detected_issues := r.real_issues.getD []
        false_positives := r.false_positives.getD []
        risk_score := r.adjusted_risk.getD primary.risk_score
        confidence := 7/10 }

/-- The weighted risk of `ConsensusJudge._fallback_judgment`:
`0.6 * primary + 0.4 * skeptic`, clamped into [0, 1]. -/
def fallbackRisk (primary_risk skeptic_risk : ℚ) : ℚ :=
  pyMax 0 (pyMin 1 (primary_risk * (3/5) + skeptic_risk * (2/5)))

/-- The verdict thresholds of `ConsensusJudge._fallback_judgment`:
PASS below 0.3, FAIL at or above 0.7, NEEDS_REVIEW between. -/
def fallbackVerdict (r : ℚ) : String :=
  if r < 3/10 then "PASS"
  else if r < 7/10 then "NEEDS_REVIEW"
  else "FAIL"

/-! ## Provider health (`src/orchestrator/app/core/llm_manager.py`) -/

/-- One provider's entry in `LLMManager.provider_health` (the timestamp
field is irrelevant to the claims). The counter is modelled on ℤ so that
non-negativity is a provable property rather than a typing artifact. -/
structure ProviderHealthState where
  is_healthy : Bool
  consecutive_failures : ℤ
deriving DecidableEq, Repr

/-- Initial health entry: healthy with zero consecutive failures. -/
def initProviderHealth : ProviderHealthState := ⟨true, 0⟩

/-- `LLMManager.mark_failure`: increment the counter; at 3 or more the
provider is marked unhealthy (otherwise the flag is left unchanged). -/
def mark_failure (h : ProviderHealthState) : ProviderHealthState :=
  let cf := h.consecutive_failures + 1
  ⟨if cf ≥ 3 then false else h.is_healthy, cf⟩

/-- `LLMManager.mark_success`: reset the counter to 0 and mark healthy. -/
def mark_success (_h : ProviderHealthState) : ProviderHealthState :=
  ⟨true, 0⟩

/-- One recorded call outcome for a provider. -/
inductive HealthEvent where
  | failure
  | success
deriving DecidableEq, Repr

/-- Apply one event as `mark_failure` / `mark_success` would. -/
def applyHealthEvent (h : ProviderHealthState) : HealthEvent →
    ProviderHealthState
  | .failure => mark_failure h
  | .success => mark_success h

/-- The provider's health after a sequence of recorded outcomes, starting
from the initial healthy state. -/
def runHealthEvents (es : List HealthEvent) : ProviderHealthState :=
  es.foldl applyHealthEvent initProviderHealth

/-- Length of the leading run of failures. -/
def leadingFailures : List HealthEvent → ℕ
  | .failure :: t => leadingFailures t + 1
  | _ => 0

/-- Number of consecutive failures at the end of the event sequence
(since the last success, or since the start). -/
def trailingFailures (es : List HealthEvent) : ℕ :=
  leadingFailures es.reverse

/-! ## Mock council (`src/orchestrator/app/mock_council.py`) — the
pipeline actually wired to `routes.process_analysis` -/

/-- The issue list `MockCouncil.analyze_diff` derives from present diff
category keys. -/
def mockIssues (d : DiffReport) : List String :=
  (if ¬ d.type_changes.isEmpty then ["Type mismatch detected"] else []) ++
  (if ¬ d.dictionary_item_removed.isEmpty then
    ["Missing fields in headless response"] else []) ++
  (if ¬ d.values_changed.isEmpty then ["Value differences found"] else [])

/-- The base risk accumulated alongside the issues: 0.3 / 0.4 / 0.2 per
present category. -/
def mockBaseRisk (d : DiffReport) : ℚ :=
  (if ¬ d.type_changes.isEmpty then 3/10 else 0) +
  (if ¬ d.dictionary_item_removed.isEmpty then 2/5 else 0) +
  (if ¬ d.values_changed.isEmpty then 1/5 else 0)

/-- `MockCouncil._is_semantic_equivalent`: some type-change entry whose
two values both coerce through `float()` to exactly equal numbers
(errors skip the entry). -/
def mock_is_semantic_equivalent (d : DiffReport) : Bool :=
  d.type_changes.any fun e =>
    match pyFloatOf e.2.1, pyFloatOf e.2.2 with
    | some a, some b => decide (a = b)
    | _, _ => false

/-- The recommendation chosen from the base risk. -/
def mockRecommendation (risk : ℚ) : String :=
  if risk < 3/10 then "No significant issues detected. Safe to proceed."
  else if risk < 7/10 then
    "Some issues detected. Manual review recommended before deployment."
  else "Critical issues found. Do not deploy until resolved."

/-- The council result dict returned on the success path. -/
structure MockResult where
  test_id : String
  merchant_id : String
  status : String
  council_opinions : List Opinion
  final_verdict : String
  risk_score : ℚ
  is_mitigated : Bool
  mitigation_recommendation : String
  error_message : Option String := none
deriving DecidableEq, Repr

/-- `MockCouncil.analyze_diff(test_id, merchant_id, diff_report,
legacy_response, headless_response)`: derives issues and base risk from
the diff, builds the three opinions (primary pessimistic +0.1 capped at
1, skeptic subtracting 0.1 when it finds false positives, judge 60/40
weighting with the 0.3/0.7 thresholds) without any model invocation.
The response bodies feed only the free-text narrative. -/
def mock_analyze_diff (test_id merchant_id : String) (d : DiffReport)
    (_legacy _headless : List (String × PyVal)) : MockResult :=
  let issues := mockIssues d
  let risk := mockBaseRisk d
  let recommendation := mockRecommendation risk
  let primary : Opinion :=
    { agent := "primary_analyzer"
      provider := some "deepseek-r1"
      analysis := ""
      detected_issues := issues
      risk_score := pyMin (risk + 1/10) 1
      confidence := 17/20 }
  let skeptic_false_positives :=
    (issues.filter fun issue =>
        strContains issue "Type mismatch" && mock_is_semantic_equivalent d).map
      (fun issue => issue ++ " (semantic equivalence)")
  let skeptic_issues := issues.filter fun issue =>
    ! (strContains issue "Type mismatch" && mock_is_semantic_equivalent d)
  let skeptic_risk :=
    if ¬ skeptic_false_positives.isEmpty then pyMax (risk - 1/10) 0 else risk
  let skeptic : Opinion :=
    { agent := "skeptic_critic"
      provider := some "mistral"
      analysis := ""
      detected_issues := skeptic_issues
      false_positives := skeptic_false_positives
      risk_score := skeptic_risk
      confidence := 39/50 }
  let final_risk := primary.risk_score * (3/5) + skeptic.risk_score * (2/5)
  let final_verdict :=
    if final_risk < 3/10 then "PASS"
    else if final_risk < 7/10 then "NEEDS_REVIEW"
    else "FAIL"
  let judge : Opinion :=
    { agent := "consensus_judge"
      provider := some "llama3.2"
      analysis := ""
      detected_issues := skeptic_issues
      risk_score := final_risk
      confidence := 23/25
      verdict := some final_verdict
      recommendation := recommendation }
  { test_id := test_id
    merchant_id := merchant_id
    status := "complete"
    council_opinions := [primary, skeptic, judge]
    final_verdict := final_verdict
    risk_score := final_risk
    is_mitigated := false
    mitigation_recommendation := recommendation }

/-! ## Council workflow (`src/orchestrator/app/graph/council_graph.py`) -/

/-- What `CouncilWorkflow.run_council_analysis` returns, restricted to
the fields the claims mention. -/
structure CouncilResult where
  status : String
  error_message : Option String
  council_opinions : List Opinion
  final_verdict : Option String
deriving DecidableEq, Repr

/-- `CouncilWorkflow.run_council_analysis`: the three stage calls run in
sequence inside one `try`; each stage outcome is either an opinion
(appended to `council_opinions`) or a raised exception (`Except.error`),
in which case `_format_error_result` reports status `failed` with the
error string and the opinions accumulated so far. On success
`_format_final_result` reports `complete` with all three opinions and
the judge's verdict (default NEEDS_REVIEW). -/
def run_council_analysis (primary skeptic judge : Except String Opinion) :
    CouncilResult :=
  match primary with
  | .error e => ⟨"failed", some e, [], none⟩
  | .ok p =>
    match skeptic with
    | .error e => ⟨"failed", some e, [p], none⟩
    | .ok sk =>
      match judge with
      | .error e => ⟨"failed", some e, [p, sk], none⟩
      | .ok j => ⟨"complete", none, [p, sk, j], some (j.verdict.getD "NEEDS_REVIEW")⟩

/-! ## The shadow_tests record (`src/orchestrator/app/api/routes.py`) -/

/-- The row `routes.py` maintains in the `shadow_tests` table, restricted
to the fields the claims mention. -/
structure ShadowRecord where
  status : String
  council_opinions : List Opinion := []
  is_mitigated : Bool
  final_verdict : Option String := none
  risk_score : Option ℚ := none
  error_message : Option String := none
deriving DecidableEq, Repr

/-- The initial row inserted by `analyze_parity_test`: status pending,
`is_mitigated` False. -/
def insertTestRecord : ShadowRecord :=
  { status := "pending", is_mitigated := false }

/-- `mitigate_test`: sets `is_mitigated` to True and touches nothing
else. -/
def mitigate_test (r : ShadowRecord) : ShadowRecord :=
  { r with is_mitigated := true }

/-- The final database update of `process_analysis` on the normal path:
status, opinions, risk, verdict, error message and — crucially —
`is_mitigated` are all overwritten from the council result. -/
def processAnalysisComplete (final : MockResult) (r : ShadowRecord) :
    ShadowRecord :=
  { r with
    status := final.status
    council_opinions := final.council_opinions
    risk_score := some final.risk_score
    final_verdict := some final.final_verdict
    is_mitigated := final.is_mitigated
    error_message := final.error_message }

/-- The `except` update of `process_analysis`: only status and
error_message are written. -/
def processAnalysisError (e : String) (r : ShadowRecord) : ShadowRecord :=
  { r with status := "failed", error_message := some e }

/-! ## Helper lemmas -/

theorem fallbackVerdict_spec (r : ℚ) :
    (fallbackVerdict r = "PASS" ↔ r < 3/10) ∧
    (fallbackVerdict r = "FAIL" ↔ 7/10 ≤ r) ∧
    (fallbackVerdict r = "NEEDS_REVIEW" ↔ 3/10 ≤ r ∧ r < 7/10) := by
  unfold fallbackVerdict
  split_ifs with h1 h2
  · refine ⟨by simpa using h1, ?_, ?_⟩
    · simp only [show ("PASS" : String) ≠ "FAIL" from by decide, false_iff]
      linarith
    · simp only [show ("PASS" : String) ≠ "NEEDS_REVIEW" from by decide,
        false_iff]
      rintro ⟨h, _⟩
      linarith
  · refine ⟨?_, ?_, ?_⟩
    · simp only [show ("NEEDS_REVIEW" : String) ≠ "PASS" from by decide,
        false_iff]
      exact h1
    · simp only [show ("NEEDS_REVIEW" : String) ≠ "FAIL" from by decide,
        false_iff]
      intro h
      linarith
    · simp only [true_iff]
      constructor <;> [linarith; exact h2]
  · refine ⟨?_, ?_, ?_⟩
    · simp only [show ("FAIL" : String) ≠ "PASS" from by decide, false_iff]
      exact h1
    · simp only [true_iff]
      linarith
    · simp only [show ("FAIL" : String) ≠ "NEEDS_REVIEW" from by decide,
        false_iff]
      rintro ⟨_, h⟩
      exact h2 h

theorem runHealthEvents_append (es : List HealthEvent) (e : HealthEvent) :
    runHealthEvents (es ++ [e]) = applyHealthEvent (runHealthEvents es) e := by
  unfold runHealthEvents
  rw [List.foldl_append]
  rfl

theorem trailingFailures_append_success (es : List HealthEvent) :
    trailingFailures (es ++ [HealthEvent.success]) = 0 := by
  unfold trailingFailures
  rw [List.reverse_append]
  rfl

theorem trailingFailures_append_failure (es : List HealthEvent) :
    trailingFailures (es ++ [HealthEvent.failure]) = trailingFailures es + 1 := by
  unfold trailingFailures
  rw [List.reverse_append]
  rfl

theorem runHealthEvents_spec (es : List HealthEvent) :
    (runHealthEvents es).consecutive_failures = (trailingFailures es : ℤ) ∧
    ((runHealthEvents es).is_healthy = true ↔ trailingFailures es < 3) := by
  induction es using List.reverseRecOn with
  | nil =>
      refine ⟨rfl, ?_⟩
      simp [runHealthEvents, trailingFailures, leadingFailures,
        initProviderHealth]
  | append_singleton es e ih =>
      obtain ⟨ih1, ih2⟩ := ih
      cases e with
      | success =>
          rw [runHealthEvents_append, trailingFailures_append_success]
          exact ⟨rfl, by simp [applyHealthEvent, mark_success]⟩
      | failure =>
          rw [runHealthEvents_append, trailingFailures_append_failure]
          simp only [applyHealthEvent, mark_failure]
          constructor
          · simp only [ih1]
            push_cast
            ring
          · simp only [ih1]
            split_ifs with h3
            · simp only [Bool.false_eq_true, false_iff]
              omega
            · rw [ih2]
              omega

/-! ## Claim theorems -/

/-- C3: for Analyzer risk `a` and Skeptic risk `s` in [0,1], the Judge's
deterministic fallback computes final risk exactly `0.6*a + 0.4*s` (the
clamp into [0,1] is the identity there), and assigns PASS iff that value
is strictly below 0.3, FAIL iff it is at least 0.7, and NEEDS_REVIEW
otherwise — including at the boundary risk values 0.29999, 0.3, 0.69999
and 0.7. -/
theorem judge_fallback_weighting (a s : ℚ) (ha0 : 0 ≤ a) (ha1 : a ≤ 1)
    (hs0 : 0 ≤ s) (hs1 : s ≤ 1) :
    fallbackRisk a s = a * (3/5) + s * (2/5) ∧
    (fallbackVerdict (fallbackRisk a s) = "PASS" ↔
      fallbackRisk a s < 3/10) ∧
    (fallbackVerdict (fallbackRisk a s) = "FAIL" ↔
      7/10 ≤ fallbackRisk a s) ∧
    (fallbackVerdict (fallbackRisk a s) = "NEEDS_REVIEW" ↔
      3/10 ≤ fallbackRisk a s ∧ fallbackRisk a s < 7/10) ∧
    fallbackVerdict (fallbackRisk (29999/100000) (29999/100000)) = "PASS" ∧
    fallbackVerdict (fallbackRisk (3/10) (3/10)) = "NEEDS_REVIEW" ∧
    fallbackVerdict (fallbackRisk (69999/100000) (69999/100000)) =
      "NEEDS_REVIEW" ∧
    fallbackVerdict (fallbackRisk (7/10) (7/10)) = "FAIL" := by
  have hx0 : (0 : ℚ) ≤ a * (3/5) + s * (2/5) := by linarith
  have hx1 : a * (3/5) + s * (2/5) ≤ 1 := by linarith
  have hrisk : fallbackRisk a s = a * (3/5) + s * (2/5) := by
    unfold fallbackRisk
    rw [pyMin_eq_right 1 _ hx1, pyMax_eq_right 0 _ hx0]
  obtain ⟨hp, hf, hn⟩ := fallbackVerdict_spec (fallbackRisk a s)
  have key : ∀ r : ℚ, 0 ≤ r → r ≤ 1 → fallbackRisk r r = r := by
    intro r h0 h1
    unfold fallbackRisk
    rw [pyMin_eq_right 1 _ (by linarith), pyMax_eq_right 0 _ (by linarith)]
    ring
  refine ⟨hrisk, hp, hf, hn, ?_, ?_, ?_, ?_⟩
  · rw [key _ (by norm_num) (by norm_num)]
    unfold fallbackVerdict
    norm_num
  · rw [key _ (by norm_num) (by norm_num)]
    unfold fallbackVerdict
    norm_num
  · rw [key _ (by norm_num) (by norm_num)]
    unfold fallbackVerdict
    norm_num
  · rw [key _ (by norm_num) (by norm_num)]
    unfold fallbackVerdict
    norm_num

/-- C3 witness: instantiation at Analyzer risk 0.5, Skeptic risk 0.5. -/
theorem judge_fallback_weighting_witness :
    fallbackRisk (1/2) (1/2) = (1/2) * (3/5) + (1/2) * (2/5) ∧
    (fallbackVerdict (fallbackRisk (1/2) (1/2)) = "NEEDS_REVIEW" ↔
      3/10 ≤ fallbackRisk (1/2) (1/2) ∧ fallbackRisk (1/2) (1/2) < 7/10) :=
  ⟨(judge_fallback_weighting (1/2) (1/2) (by norm_num) (by norm_num)
      (by norm_num) (by norm_num)).1,
   (judge_fallback_weighting (1/2) (1/2) (by norm_num) (by norm_num)
      (by norm_num) (by norm_num)).2.2.2.1⟩

/-- C4: from the healthy initial state, for every failure/success event
sequence the provider's `is_healthy` is false exactly when the trailing
run of consecutive failures has reached 3 (so it first turns false at
the 3rd consecutive failure), any single success resets the counter to 0
and restores health immediately, and the failure counter is never
negative. -/
theorem provider_health_three_strikes (es : List HealthEvent) :
    (runHealthEvents es).consecutive_failures = (trailingFailures es : ℤ) ∧
    ((runHealthEvents es).is_healthy = true ↔ trailingFailures es < 3) ∧
    0 ≤ (runHealthEvents es).consecutive_failures ∧
    (∀ h : ProviderHealthState,
      mark_success h = { is_healthy := true, consecutive_failures := 0 }) := by
  obtain ⟨h1, h2⟩ := runHealthEvents_spec es
  refine ⟨h1, h2, ?_, fun _ => rfl⟩
  rw [h1]
  exact Int.ofNat_nonneg _

theorem mem_performance_computeFlags (d : DiffReport) (lt ht : ℚ) :
    "performance_regression" ∈ computeFlags d lt ht ↔ ht > lt * (3/2) := by
  unfold computeFlags
  split_ifs with h1 h2 h3 <;>
    simp_all [List.mem_append, List.mem_singleton]

/-- C1 (amended): a type-change entry whose two values coerce to numerics
`p`, `q` per the code's coercion rules is retained in the cleaned
`difference` iff `|p - q| ≥ 0.01` (so within-tolerance entries are
removed); but because flags are computed from the diff BEFORE the
semantic suppression, any such entry — suppressed or not — contributes
the `type_mismatch` flag. -/
theorem typeChange_suppression_and_flags (diff : DiffReport) (lt ht : ℚ)
    (path : String) (o n : PyVal) (p q : ℚ)
    (hc : coercePair? o n = some (p, q))
    (hmem : (path, o, n) ∈ diff.type_changes) :
    ((path, o, n) ∈ (replayPostDiff diff lt ht).1.type_changes ↔
      1/100 ≤ |p - q|) ∧
    "type_mismatch" ∈ (replayPostDiff diff lt ht).2 := by
  have hcheck : check_semantic_equivalence o n = true ↔ |p - q| < 1/100 := by
    rw [coercePair?_some_iff_check o n p q hc, pyAbs_eq_abs]
  constructor
  · have hfalse : (check_semantic_equivalence o n = false) ↔
        ¬ (|p - q| < 1/100) := by
      rw [← hcheck]
      simp
    simp only [replayPostDiff, semanticCleanup, List.mem_filter, hmem,
      true_and, Bool.not_eq_true']
    rw [hfalse, not_lt]
  · have hne : diff.type_changes ≠ [] := List.ne_nil_of_mem hmem
    simp [replayPostDiff, computeFlags, hne]

/-- C1 witness: the `100` vs `"100"` pair at latency 1 vs 1. -/
theorem typeChange_suppression_and_flags_witness :
    ((("root.price", PyVal.int 100, PyVal.str "100") ∈
        (replayPostDiff
          ⟨[("root.price", PyVal.int 100, PyVal.str "100")], [], []⟩
          1 1).1.type_changes ↔
      1/100 ≤ |(100 : ℚ) - 100|) ∧
    "type_mismatch" ∈
      (replayPostDiff
        ⟨[("root.price", PyVal.int 100, PyVal.str "100")], [], []⟩ 1 1).2) :=
  typeChange_suppression_and_flags
    ⟨[("root.price", PyVal.int 100, PyVal.str "100")], [], []⟩ 1 1
    "root.price" (PyVal.int 100) (PyVal.str "100") 100 100
    (by decide) (by decide)

/-- C1 counterexample: reference `{"price": 100}` vs candidate
`{"price": "100"}` — the type-change entry is removed from the diff
summary, yet the report's flags are exactly `["type_mismatch"]`: the
suppressed entry still contributed the flag, contradicting the claim
that it contributes no `type_mismatch` flag. -/
theorem typeChange_flag_despite_suppression :
    (run_shadow_replay
        (fun _ _ =>
          { type_changes := [("root.price", PyVal.int 100, PyVal.str "100")] })
        ⟨some ⟨[("price", PyVal.int 100)]⟩, 1, none⟩
        [⟨some ⟨[("price", PyVal.str "100")]⟩, 1, none⟩]).diff_summary
      = { type_changes := [] } ∧
    (run_shadow_replay
        (fun _ _ =>
          { type_changes := [("root.price", PyVal.int 100, PyVal.str "100")] })
        ⟨some ⟨[("price", PyVal.int 100)]⟩, 1, none⟩
        [⟨some ⟨[("price", PyVal.str "100")]⟩, 1, none⟩]).flags
      = ["type_mismatch"] :=
  ⟨by decide, by decide⟩

/-- C10: the semantic-equivalence check treats booleans as numbers
(Python's bool being an int subtype): any type-change pair involving a
boolean whose coerced values are within 0.01 of each other is judged
semantically equivalent and suppressed from the diff by the cleanup
pass. -/
theorem bool_treated_as_numeric (o n : PyVal) (p q : ℚ) (d : DiffReport)
    (path : String) (_hb : o.isBool = true ∨ n.isBool = true)
    (hc : coercePair? o n = some (p, q)) (hlt : |p - q| < 1/100) :
    check_semantic_equivalence o n = true ∧
    (path, o, n) ∉ (semanticCleanup d).type_changes := by
  have hcheck : check_semantic_equivalence o n = true := by
    rw [coercePair?_some_iff_check o n p q hc, pyAbs_eq_abs]
    exact hlt
  refine ⟨hcheck, ?_⟩
  unfold semanticCleanup
  simp [List.mem_filter, hcheck]

/-- C10 witness: `True` vs `"1.0"`. -/
theorem bool_treated_as_numeric_witness :
    check_semantic_equivalence (PyVal.bool true) (PyVal.str "1.0") = true ∧
    ("p", PyVal.bool true, PyVal.str "1.0") ∉
      (semanticCleanup
        ⟨[("p", PyVal.bool true, PyVal.str "1.0")], [], []⟩).type_changes :=
  bool_treated_as_numeric (PyVal.bool true) (PyVal.str "1.0") 1 1
    ⟨[("p", PyVal.bool true, PyVal.str "1.0")], [], []⟩ "p"
    (Or.inl (by decide)) (by decide) (by norm_num)

/-- C2 counterexample: an empty `difference` submitted to the wired
pipeline (`process_analysis` → `MockCouncil.analyze_diff`) yields risk
score 0.06 — not 0.0 — and three council opinions — not a single
synthetic Analyzer-only opinion: there is no short-circuit path. -/
theorem empty_diff_not_short_circuit :
    (mock_analyze_diff "t1" "m1" {} [] []).risk_score = 3/50 ∧
    (3/50 : ℚ) ≠ 0 ∧
    (mock_analyze_diff "t1" "m1" {} [] []).council_opinions.length = 3 :=
  ⟨by decide, by norm_num, by decide⟩

/-- C2 (amended): a ReplayReport with empty `difference` deterministically
produces a completed PASS verdict regardless of `merchantId` or the
response bodies — but through the full three-opinion mock council
(analyzer risk 0.1, skeptic risk 0.0, weighted 0.06), not a short-circuit
with a single synthetic opinion of risk 0.0. -/
theorem empty_diff_always_pass (test_id merchant_id : String)
    (legacy headless : List (String × PyVal)) :
    (mock_analyze_diff test_id merchant_id {} legacy headless).status =
      "complete" ∧
    (mock_analyze_diff test_id merchant_id {} legacy headless).final_verdict =
      "PASS" ∧
    (mock_analyze_diff test_id merchant_id {} legacy headless).risk_score =
      3/50 ∧
    ((mock_analyze_diff test_id merchant_id {} legacy
        headless).council_opinions).length = 3 ∧
    (mock_analyze_diff test_id merchant_id {} legacy headless).is_mitigated =
      false :=
  ⟨rfl,
   ((by decide : (mock_analyze_diff "t" "m" {} [] []).final_verdict =
      "PASS") :
     (mock_analyze_diff test_id merchant_id {} legacy
       headless).final_verdict = "PASS"),
   ((by decide : (mock_analyze_diff "t" "m" {} [] []).risk_score = 3/50) :
     (mock_analyze_diff test_id merchant_id {} legacy headless).risk_score =
       3/50),
   rfl, rfl⟩

/-- C5 counterexample: when every provider fails at the Analyzer stage
(`call_model` returns nothing), `PrimaryAnalyzer.analyze` does not raise —
it returns the rule-based fallback opinion — so the run completes with
three opinions and no error message, instead of ending in Failed with
zero opinions. -/
theorem analyzer_exhaustion_completes :
    analyzeOutcome (fun _ => none) (some "Qwen/Qwen2.5-7B-Instruct:together")
        none { type_changes := [("p", PyVal.int 1, PyVal.str "2")] } =
      fallback_analysis
        { type_changes := [("p", PyVal.int 1, PyVal.str "2")] } ∧
    (run_council_analysis
        (.ok (analyzeOutcome (fun _ => none)
          (some "Qwen/Qwen2.5-7B-Instruct:together") none
          { type_changes := [("p", PyVal.int 1, PyVal.str "2")] }))
        (.ok { agent := "skeptic_critic", risk_score := 1/2,
               confidence := 7/10 })
        (.ok { agent := "consensus_judge", risk_score := 1/2,
               confidence := 3/4 })).status = "complete" ∧
    (run_council_analysis
        (.ok (analyzeOutcome (fun _ => none)
          (some "Qwen/Qwen2.5-7B-Instruct:together") none
          { type_changes := [("p", PyVal.int 1, PyVal.str "2")] }))
        (.ok { agent := "skeptic_critic", risk_score := 1/2,
               confidence := 7/10 })
        (.ok { agent := "consensus_judge", risk_score := 1/2,
               confidence := 3/4 })).error_message = none ∧
    (run_council_analysis
        (.ok (analyzeOutcome (fun _ => none)
          (some "Qwen/Qwen2.5-7B-Instruct:together") none
          { type_changes := [("p", PyVal.int 1, PyVal.str "2")] }))
        (.ok { agent := "skeptic_critic", risk_score := 1/2,
               confidence := 7/10 })
        (.ok { agent := "consensus_judge", risk_score := 1/2,
               confidence := 3/4 })).council_opinions.length = 3 :=
  ⟨rfl, rfl, rfl, rfl⟩

/-- C5 (amended): provider exhaustion at the Analyzer never fails the
run — the stage absorbs it into the rule-based fallback opinion; the
pipeline reaches Failed (with the error message recorded) only when a
stage raises an unexpected exception, and then the opinions accumulated
at earlier stages are preserved: none for an Analyzer-stage exception,
the analyzer's for a Skeptic-stage exception, both for a Judge-stage
exception. -/
theorem council_failure_semantics :
    (∀ (e : String) (sk j : Except String Opinion),
      run_council_analysis (.error e) sk j =
        ⟨"failed", some e, [], none⟩) ∧
    (∀ (p : Opinion) (e : String) (j : Except String Opinion),
      run_council_analysis (.ok p) (.error e) j =
        ⟨"failed", some e, [p], none⟩) ∧
    (∀ (p sk : Opinion) (e : String),
      run_council_analysis (.ok p) (.ok sk) (.error e) =
        ⟨"failed", some e, [p, sk], none⟩) ∧
    (∀ p sk j : Opinion,
      (run_council_analysis (.ok p) (.ok sk) (.ok j)).status = "complete" ∧
      (run_council_analysis (.ok p) (.ok sk) (.ok j)).council_opinions =
        [p, sk, j]) ∧
    (∀ (jl : String → Option AnalysisData) (m : String) (d : DiffReport),
      analyzeOutcome jl (some m) none d = fallback_analysis d) :=
  ⟨fun _ _ _ => rfl, fun _ _ _ => rfl, fun _ _ _ => rfl,
   fun _ _ _ => ⟨rfl, rfl⟩, fun _ _ _ => rfl⟩

/-- C6 (amended): the `performance_regression` flag is raised iff the
report's mean candidate latency strictly exceeds 1.5× the report's
reference latency, where a failed call contributes latency 0 — so a
failed reference call does NOT prevent the flag; a successful candidate
then always raises it. -/
theorem performance_flag_latency_ratio
    (deepdiff : HttpResp → HttpResp → DiffReport)
    (lo : SendOutcome) (hos : List SendOutcome) :
    ("performance_regression" ∈ (run_shadow_replay deepdiff lo hos).flags ↔
      (run_shadow_replay deepdiff lo hos).headless_time >
        (run_shadow_replay deepdiff lo hos).legacy_time * (3/2)) :=
  mem_performance_computeFlags _ _ _

/-- C6 counterexample: the reference call failed (latency recorded as 0,
response absent) while the candidate answered in 0.2s — the code raises
`performance_regression` even though the reference latency measurement
is unavailable, contradicting the claim that the flag is not raised
then. -/
theorem performance_flag_reference_failed :
    (run_shadow_replay (fun _ _ => {}) (sendFailure "connection refused")
        [⟨some ⟨[("a", PyVal.int 1)]⟩, 1/5, none⟩]).flags =
      ["performance_regression"] ∧
    (run_shadow_replay (fun _ _ => {}) (sendFailure "connection refused")
        [⟨some ⟨[("a", PyVal.int 1)]⟩, 1/5, none⟩]).legacy_response = none ∧
    (run_shadow_replay (fun _ _ => {}) (sendFailure "connection refused")
        [⟨some ⟨[("a", PyVal.int 1)]⟩, 1/5, none⟩]).legacy_time = 0 :=
  ⟨by decide, by decide, by decide⟩

/-- C7 counterexample: a model reply with no JSON block at all ("no
issues found") also fails to parse as structured data, but is routed to
`_parse_text_response`, not to the 0.4/0.5/0.2 rule: on a diff with one
type change the produced risk is 0.3, not the 0.4 the claimed rule
yields. -/
theorem analyzer_text_parse_path :
    extractBrace "no issues found" = none ∧
    (analyzeOutcome (fun _ => none)
        (some "Qwen/Qwen2.5-7B-Instruct:together") (some "no issues found")
        { type_changes :=
            [("root.price", PyVal.int 100, PyVal.str "100")] }).risk_score =
      3/10 ∧
    ((3 : ℚ)/10) ≠ 2/5 :=
  ⟨by decide, by decide, by norm_num⟩

/-- C7 (amended): the 0.4 (type-change) + 0.5 (missing-key) + 0.2
(value-change) estimate capped at 1.0 is produced when no model is
reachable, when the call fails, or when an extracted JSON block fails to
decode; a reply without a JSON block is instead handled by the separate
text-heuristic parser. In all cases the opinion's risk is numeric and
within [0, 1]. -/
theorem analyzer_fallback_rule (jl : String → Option AnalysisData)
    (m text block : String) (d : DiffReport)
    (hb : extractBrace text = some block) (hj : jl block = none) :
    analyzeOutcome jl (some m) (some text) d = fallback_analysis d text ∧
    (fallback_analysis d text).risk_score =
      pyMin ((if ¬ d.type_changes.isEmpty then (2 : ℚ)/5 else 0) +
        (if ¬ d.dictionary_item_removed.isEmpty then 1/2 else 0) +
        (if ¬ d.values_changed.isEmpty then 1/5 else 0)) 1 ∧
    0 ≤ (fallback_analysis d text).risk_score ∧
    (fallback_analysis d text).risk_score ≤ 1 := by
  have h0 : (0 : ℚ) ≤
      (if ¬ d.type_changes.isEmpty then (2 : ℚ)/5 else 0) +
        (if ¬ d.dictionary_item_removed.isEmpty then 1/2 else 0) +
        (if ¬ d.values_changed.isEmpty then 1/5 else 0) := by
    split_ifs <;> norm_num
  have hge : ∀ a : ℚ, 0 ≤ a → 0 ≤ pyMin a 1 := by
    intro a ha
    unfold pyMin
    split_ifs with h
    · exact ha
    · norm_num
  have hle : ∀ a : ℚ, pyMin a 1 ≤ 1 := by
    intro a
    unfold pyMin
    split_ifs with h
    · exact h
    · norm_num
  exact ⟨by unfold analyzeOutcome; simp only [hb, hj], rfl, hge _ h0, hle _⟩

/-- C7 witness: a reply consisting of a brace block that is not valid
JSON, on an empty diff. -/
theorem analyzer_fallback_rule_witness :
    analyzeOutcome (fun _ => none) (some "Qwen")
        (some "\x7bbad json\x7d") {} =
      fallback_analysis {} "\x7bbad json\x7d" :=
  (analyzer_fallback_rule (fun _ => none) "Qwen" "\x7bbad json\x7d"
    "\x7bbad json\x7d" {} (by decide) rfl).1

/-- C8 counterexample: the SkepticCritic agent's parse-failure fallback
(`_fallback_critique`) does not echo the analyzer's issues — it
recomputes findings from the diff: on a diff whose type change is
semantically equivalent (100 vs "100") it declares one false positive,
contradicting "declares zero false positives". -/
theorem skeptic_critic_fallback_nonzero_fp :
    (skeptic_fallback_critique
        { agent := "primary_analyzer", risk_score := 1/2, confidence := 4/5 }
        { type_changes := [("root.price", PyVal.int 100, PyVal.str "100")] }
        "").false_positives.length = 1 ∧
    (skeptic_fallback_critique
        { agent := "primary_analyzer", risk_score := 1/2, confidence := 4/5 }
        { type_changes := [("root.price", PyVal.int 100, PyVal.str "100")] }
        "").confidence = 7/10 :=
  ⟨by decide, by decide⟩

/-- C8 (amended): in the SimpleCouncil variant, a skeptic reply that
fails to parse as JSON produces a fallback opinion that echoes the
analyzer's detected issues unchanged, declares zero false positives,
carries the analyzer's risk score, and has confidence 0.7 (within the
0.5–0.7 range); the SkepticCritic agent variant instead recomputes its
critique from the diff. -/
theorem simple_skeptic_parse_fallback (jl : String → Option SData)
    (primary : Opinion) (text : String) (hj : jl text = none) :
    (simple_call_skeptic_critic jl primary (some text)).detected_issues =
      primary.detected_issues ∧
    (simple_call_skeptic_critic jl primary (some text)).false_positives =
      [] ∧
    (simple_call_skeptic_critic jl primary (some text)).risk_score =
      primary.risk_score ∧
    (simple_call_skeptic_critic jl primary (some text)).confidence = 7/10 ∧
    ((1 : ℚ)/2 ≤ 7/10 ∧ ((7 : ℚ)/10) ≤ 7/10) := by
  simp only [simple_call_skeptic_critic, hj, Option.getD_some]
  try norm_num

/-- C8 witness: an unparseable reply with a concrete primary opinion. -/
theorem simple_skeptic_parse_fallback_witness :
    (simple_call_skeptic_critic (fun _ => none)
        { agent := "primary_analyzer",
          detected_issues := ["Type mismatch detected"],
          risk_score := 2/5, confidence := 3/5 }
        (some "not json")).detected_issues = ["Type mismatch detected"] :=
  (simple_skeptic_parse_fallback (fun _ => none)
    { agent := "primary_analyzer",
      detected_issues := ["Type mismatch detected"],
      risk_score := 2/5, confidence := 3/5 }
    "not json" rfl).1

/-- C9 counterexample: mitigate a pending record, then let the pipeline's
completion update run — `is_mitigated` is overwritten back to False from
the council result, a true→false transition the claim forbids. -/
theorem mitigation_reset_by_completion :
    (mitigate_test insertTestRecord).is_mitigated = true ∧
    (processAnalysisComplete (mock_analyze_diff "t1" "m1" {} [] [])
        (mitigate_test insertTestRecord)).is_mitigated = false :=
  ⟨rfl, rfl⟩

/-- C9 (amended): the mitigation endpoint only sets `is_mitigated` to
true and is independent of the verdict label, and the pipeline's failure
update preserves it; but the pipeline's completion update overwrites
`is_mitigated` with the council result's value, which is always false —
so a mitigation recorded before the run finishes is reset. -/
theorem mitigation_semantics :
    (∀ r : ShadowRecord, (mitigate_test r).is_mitigated = true ∧
      (mitigate_test r).final_verdict = r.final_verdict ∧
      (mitigate_test r).status = r.status) ∧
    (∀ (e : String) (r : ShadowRecord),
      (processAnalysisError e r).is_mitigated = r.is_mitigated) ∧
    (∀ (tid mid : String) (d : DiffReport)
        (lg hl : List (String × PyVal)) (r : ShadowRecord),
      (processAnalysisComplete (mock_analyze_diff tid mid d lg
          hl) r).is_mitigated = false) :=
  ⟨fun _ => ⟨rfl, rfl, rfl⟩, fun _ _ => rfl, fun _ _ _ _ _ _ => rfl⟩

end CyberCypher
